import Mathlib

/-!
Verification of the `pgls` command-line database inspector against its
natural-language specification.

The development shallowly embeds the program (`src/pgls/__init__.py`):

* Python arbitrary-precision integers are `Int`.
* Python `round` (banker's rounding, ties to even) applied to the exact
  quotient of two integers is `pyRound`.  The Python code divides as IEEE
  floats before rounding; the division is modelled exactly on rationals,
  which agrees with the floats at every value the claims mention.
* The database server is an oracle (`World`) mapping each issued query to
  either rows or a driver error.  A failure to connect surfaces in the
  model as a failure of the first query issued on that connection.
* The side effects of one run (connections opened and closed, queries
  issued) are an explicit event log threaded through the functions.
* Python exceptions are `Except` values: an `Except.error` propagates past
  the remaining statements of the embedded function, exactly as an
  exception skips them.
* Printing builds the printed lines instead of writing them: each
  `display` method returns the lines it would print, colour escapes
  included (colorama: CYAN = ESC[36m, GREEN = ESC[32m, BLUE = ESC[34m,
  RED = ESC[31m, LIGHTWHITE_EX = ESC[97m, RESET = ESC[39m).
-/

namespace Pgls

/-- Python `round (n / d)` for integers `n` and `d > 0`, computed exactly:
nearest integer, ties to even (Python rounds floats half-to-even). -/
def pyRound (n d : Int) : Int :=
  let q := n / d
  let r := n % d
  if 2 * r < d then q
  else if d < 2 * r then q + 1
  else if q % 2 = 0 then q else q + 1

/-- `Size` dataclass: wraps a byte count. -/
structure Size where
  bytes : Int
deriving Repr, DecidableEq

/-- `Size.human` from the source: pick the largest binary unit whose
threshold the count meets or exceeds, divide, round, append the suffix. -/
def Size.human (s : Size) : String :=
  let ps : Nat × String :=
    if s.bytes ≥ 1024 ^ 4 then (4, "TiB")
    else if s.bytes ≥ 1024 ^ 3 then (3, "GiB")
    else if s.bytes ≥ 1024 ^ 2 then (2, "MiB")
    else if s.bytes ≥ 1024 ^ 1 then (1, "KiB")
    else (0, "bytes")
  let value := pyRound s.bytes ((1024 : Int) ^ ps.1)
  toString value ++ " " ++ ps.2

/-- `Count` dataclass: wraps a row count. -/
structure Count where
  count : Int
deriving Repr, DecidableEq

/-- `Count.human` from the source: decimal thousands, suffixes
`"kkk rows"`, `"kk rows"`, `"k rows"`, `" rows"`; note the raw-value
suffix carries its own leading space and the format has none. -/
def Count.human (c : Count) : String :=
  let ps : Nat × String :=
    if c.count ≥ 1000 ^ 3 then (3, "kkk rows")
    else if c.count ≥ 1000 ^ 2 then (2, "kk rows")
    else if c.count ≥ 1000 ^ 1 then (1, "k rows")
    else (0, " rows")
  let value := pyRound c.count ((1000 : Int) ^ ps.1)
  toString value ++ ps.2

/-- Modelled from the spec's words (§4.1, size): thresholds
`[TiB, GiB, MiB, KiB]`, pick the first one the value meets or exceeds,
else raw bytes; divide by the threshold, round, format
`"<integer> <unit>"`.  Stated only to be compared with `Size.human`. -/
def sizeSpecFormat (n : Int) : String :=
  let thresholds : List (Int × String) :=
    [(1024 ^ 4, "TiB"), (1024 ^ 3, "GiB"), (1024 ^ 2, "MiB"), (1024 ^ 1, "KiB")]
  match thresholds.find? (fun t => decide (n ≥ t.1)) with
  | some t => toString (pyRound n t.1) ++ " " ++ t.2
  | none => toString n ++ " " ++ "bytes"

/-- Modelled from the spec's words (§4.1, count): thresholds at
`1000^3` (`"kkk rows"`), `1000^2` (`"kk rows"`), `1000^1` (`"k rows"`),
else the raw value with suffix `" rows"`; the suffix never varies for
singular/plural.  Stated only to be compared with `Count.human`. -/
def countSpecFormat (n : Int) : String :=
  let thresholds : List (Int × String) :=
    [(1000 ^ 3, "kkk rows"), (1000 ^ 2, "kk rows"), (1000 ^ 1, "k rows")]
  match thresholds.find? (fun t => decide (n ≥ t.1)) with
  | some t => toString (pyRound n t.1) ++ t.2
  | none => toString n ++ " rows"

/-- colorama `Fore.CYAN`. -/
def ansiCyan : String := "\x1b[36m"

/-- colorama `Fore.GREEN`. -/
def ansiGreen : String := "\x1b[32m"

/-- colorama `Fore.BLUE`. -/
def ansiBlue : String := "\x1b[34m"

/-- colorama `Fore.RED`. -/
def ansiRed : String := "\x1b[31m"

/-- colorama `Fore.LIGHTWHITE_EX`. -/
def ansiLightWhite : String := "\x1b[97m"

/-- colorama `Fore.RESET`. -/
def ansiReset : String := "\x1b[39m"

/-- Python `"  " * ident`. -/
def indentOf : Nat → String
  | 0 => ""
  | n + 1 => "  " ++ indentOf n

/-- `Field` dataclass. -/
structure Field where
  name : String
  description : Option String
  type : String
  default : Option String
  nullable : Bool
deriving Repr, DecidableEq

/-- `Field.display`: the single line printed for a field (the `print` call
with `sep=""` concatenates its arguments). -/
def Field.display (f : Field) (ident : Nat) : String :=
  let nullableStr := if f.nullable then " " ++ ansiRed ++ "(nullable)" ++ ansiReset else ""
  indentOf ident
    ++ ("• " ++ ansiGreen ++ f.name ++ ansiReset ++ " ")
    ++ ("| " ++ f.type)
    ++ nullableStr

/-- `Table` dataclass. -/
structure Table where
  schema : String
  name : String
  description : Option String
  size : Size
  rows : Count
  fields : List Field
deriving Repr, DecidableEq

/-- `Table.display`: the lines printed for a table.  Python's
`if self.description:` is false for `None` and for the empty string. -/
def Table.display (t : Table) (ident : Nat) : List String :=
  let head := indentOf ident
    ++ ("• " ++ ansiBlue ++ t.schema ++ "." ++ t.name ++ ansiReset ++ " ")
    ++ ansiLightWhite
    ++ ("(" ++ t.size.human ++ ", " ++ t.rows.human ++ ")")
    ++ ansiReset
    ++ (" " ++ ansiLightWhite ++ "(table)" ++ ansiReset)
  let descLines := match t.description with
    | some d => if d = "" then [] else [indentOf (ident + 1) ++ ansiLightWhite ++ d ++ ansiReset, ""]
    | none => []
  head :: descLines ++ t.fields.map (fun f => f.display (ident + 1))

/-- `Database` dataclass. -/
structure Database where
  name : String
  description : Option String
  owner : String
  size : Size
  tables : List Table
deriving Repr, DecidableEq

/-- `Database.display`: the lines printed for a database and its subtree. -/
def Database.display (d : Database) (ident : Nat) : List String :=
  let head := indentOf ident
    ++ ("• " ++ ansiCyan ++ d.name ++ ansiReset ++ " ")
    ++ ansiLightWhite
    ++ ("(" ++ d.size.human ++ ")")
    ++ ansiReset
    ++ (" " ++ ansiLightWhite ++ "(database)" ++ ansiReset)
  let descLines := match d.description with
    | some s => if s = "" then [] else [indentOf (ident + 1) ++ ansiLightWhite ++ s ++ ansiReset, ""]
    | none => []
  head :: descLines ++ (d.tables.map (fun t => t.display (ident + 1))).flatten

/-- A row of the database-list query in `fetch_databases`. -/
structure DbRow where
  name : String
  owner : String
  description : Option String
  size : Int
deriving Repr, DecidableEq

/-- A row of the table-list query in `fetch_tables`. -/
structure TableRow where
  schema : String
  name : String
  description : Option String
  size : Int
  rows : Int
deriving Repr, DecidableEq

/-- A row of the `information_schema.columns` query in `fetch_tables`. -/
structure FieldRow where
  schema_name : String
  table_name : String
  name : String
  type : String
  default : Option String
  nullable : Bool
deriving Repr, DecidableEq

/-- Errors raised by the database driver (`asyncpg`). -/
inductive PgErr where
  | insufficientPrivilege
  | connectionFailure
deriving Repr, DecidableEq

/-- Errors that can end a run: a driver error, Python's
`UnboundLocalError` (reading a local variable that was never assigned),
or the explicit `NotImplementedError` raised on an unknown sort mode. -/
inductive RunError where
  | pg (e : PgErr)
  | unboundLocal
  | notImplemented
deriving Repr, DecidableEq

/-- Observable side effects of a run: connections opened and closed (by
connection target string) and the three catalog queries issued. -/
inductive Event where
  | connect (target : String)
  | dbQuery
  | tableQuery (db : String)
  | fieldsQuery (db : String)
  | close (target : String)
deriving Repr, DecidableEq

/-- The database server, as an oracle from issued queries to results.
`dbQuery` is keyed by the interpolated `order by` expression; the two
per-database queries are keyed by the database name (and, for tables, the
`order by` expression).  A failure to connect is modelled as the first
query on that connection failing with `connectionFailure`. -/
structure World where
  dbQuery : String → Except PgErr (List DbRow)
  tableQuery : String → String → Except PgErr (List TableRow)
  fieldsQuery : String → Except PgErr (List FieldRow)

/-- The `order by` expression chosen at the top of `fetch_databases`
(quoting punctuation in the SQL fragment elided). -/
def orderByDbs (sort : String) : Except RunError String :=
  if sort = "name" then Except.ok ("db.datname")
  else if sort = "size" then Except.ok ("pg_database_size(db.datname) desc")
  else Except.error RunError.notImplemented

/-- The `order by` expression chosen at the top of `fetch_tables`
(quoting punctuation in the SQL fragment elided). -/
def orderByTables (sort : String) : Except RunError String :=
  if sort = "name" then Except.ok ("schemaname, tablename")
  else if sort = "size" then Except.ok ("pg_table_size(schemaname.tablename) desc")
  else Except.error RunError.notImplemented

/-- `fetch_fields`: filter the prefetched column rows down to one table
(Python `all([row[...] == schema_name, row[...] == table_name])`) and
map each row to a `Field` with `description=None`; the loop appends in
input order. -/
def fetch_fields (prefetched_fields : List FieldRow) (schema_name table_name : String) :
    List Field :=
  let data := prefetched_fields.filter
    (fun row => row.schema_name == schema_name && row.table_name == table_name)
  data.foldl
    (fun fields row => fields ++
      [{ name := row.name, description := none, type := row.type,
         default := row.default, nullable := row.nullable }])
    []

/-- `fetch_tables`: connect to `<base_dsn>/<database_name>`, run the
table query, optionally the columns query, build the `Table` list, close
the connection and return.  An `Except.error` models an exception
propagating out: note that the `close` event is appended only on the
success path, exactly as in the source, where `await connection.close()`
is unreachable when `connection.fetch` raises. -/
def fetch_tables (w : World) (base_dsn database_name sort : String) (show_fields : Bool)
    (log : List Event) : Except RunError (List Table) × List Event :=
  match orderByTables sort with
  | Except.error e => (Except.error e, log)
  | Except.ok orderBy =>
    let target := base_dsn ++ "/" ++ database_name
    let log := log ++ [Event.connect target]
    match w.tableQuery database_name orderBy with
    | Except.error e => (Except.error (RunError.pg e), log ++ [Event.tableQuery database_name])
    | Except.ok data =>
      let log := log ++ [Event.tableQuery database_name]
      let fieldsStep : Except RunError (List FieldRow) × List Event :=
        if show_fields then
          match w.fieldsQuery database_name with
          | Except.error e =>
            (Except.error (RunError.pg e), log ++ [Event.fieldsQuery database_name])
          | Except.ok fd => (Except.ok fd, log ++ [Event.fieldsQuery database_name])
        else (Except.ok [], log)
      match fieldsStep with
      | (Except.error e, log) => (Except.error e, log)
      | (Except.ok fields_data, log) =>
        let tables := data.map (fun row =>
          ({ schema := row.schema, name := row.name, description := row.description,
             size := ⟨row.size⟩, rows := ⟨row.rows⟩,
             fields := fetch_fields fields_data row.schema row.name } : Table))
        (Except.ok tables, log ++ [Event.close target])

/-- Builds the `Database` yielded for one row of the database list. -/
def mkDatabase (row : DbRow) (tables : List Table) : Database :=
  { name := row.name, description := row.description, owner := row.owner,
    size := ⟨row.size⟩, tables := tables }

/-- The `for row in data:` loop of `fetch_databases`.  `tablesVar` is the
binding state of the Python local `tables`: `none` means not yet
assigned.  On `InsufficientPrivilegeError` the handler is `pass`, so the
local keeps its previous state; yielding then reads the local, raising
`UnboundLocalError` when it was never assigned.  Returns the databases
yielded so far, the loop outcome, and the event log. -/
def fdLoop (w : World) (base_dsn sort : String) (show_tables show_fields : Bool) :
    List DbRow → Option (List Table) → List Event →
    List Database × Except RunError Unit × List Event
  | [], _, log => ([], Except.ok (), log)
  | row :: rest, tablesVar, log =>
    let step : Except RunError (Option (List Table)) × List Event :=
      if show_tables then
        match fetch_tables w base_dsn row.name sort show_fields log with
        | (Except.ok ts, log2) => (Except.ok (some ts), log2)
        | (Except.error (RunError.pg PgErr.insufficientPrivilege), log2) =>
          (Except.ok tablesVar, log2)
        | (Except.error e, log2) => (Except.error e, log2)
      else (Except.ok (some []), log)
    match step with
    | (Except.error e, log2) => ([], Except.error e, log2)
    | (Except.ok none, log2) => ([], Except.error RunError.unboundLocal, log2)
    | (Except.ok (some ts), log2) =>
      let r := fdLoop w base_dsn sort show_tables show_fields rest (some ts) log2
      (mkDatabase row ts :: r.1, r.2.1, r.2.2)

/-- `fetch_databases`: check the sort mode, connect to
`<base_dsn>/postgres`, run the database query, loop, and close the
connection — the final `await connection.close()` runs only when the
loop finishes without an uncaught exception.  Returns the databases
yielded, the outcome, and the event log. -/
def fetch_databases (w : World) (base_dsn sort : String) (show_tables show_fields : Bool) :
    List Database × Except RunError Unit × List Event :=
  match orderByDbs sort with
  | Except.error e => ([], Except.error e, [])
  | Except.ok orderBy =>
    let target := base_dsn ++ "/postgres"
    let log := [Event.connect target]
    match w.dbQuery orderBy with
    | Except.error e => ([], Except.error (RunError.pg e), log ++ [Event.dbQuery])
    | Except.ok data =>
      let log := log ++ [Event.dbQuery]
      let r := fdLoop w base_dsn sort show_tables show_fields data none log
      match r.2.1 with
      | Except.ok _ => (r.1, Except.ok (), r.2.2 ++ [Event.close target])
      | Except.error e => (r.1, Except.error e, r.2.2)

/-- `fetch_and_display_all(dsn, sort, tables, indexes, views, fields)`:
drives `fetch_databases` and displays every yielded database; `indexes`
and `views` are accepted and ignored.  Returns the printed lines, the
outcome and the event log. -/
def fetch_and_display_all (w : World) (dsn sort tables indexes views fields : String) :
    List String × Except RunError Unit × List Event :=
  let r := fetch_databases w dsn sort (tables == "show") (fields == "show")
  ((r.1.map (fun d => d.display 0)).flatten, r.2.1, r.2.2)

/-- The validated options produced by the `click` declarations on `main`:
each `--show-X`/`--hide-X` pair sets one variable to `"show"` or
`"hide"`, with default `"show"`; `--sort` is a closed choice defaulting
to `"name"`; `dsn` is the positional argument. -/
structure Options where
  sort : String
  tables : String
  fields : String
  views : String
  indexes : String
  dsn : String
deriving Repr, DecidableEq

/-- The option state before any flag is seen (the `click` defaults). -/
def defaultOptions (dsn : String) : Options :=
  { sort := "name", tables := "show", fields := "show", views := "show",
    indexes := "show", dsn := dsn }

/-- One `click` flag: accepted flags update the matching option variable,
anything else is rejected. -/
def applyFlag (o : Options) (arg : String) : Option Options :=
  if arg = "--show-tables" then some { o with tables := "show" }
  else if arg = "--hide-tables" then some { o with tables := "hide" }
  else if arg = "--show-fields" then some { o with fields := "show" }
  else if arg = "--hide-fields" then some { o with fields := "hide" }
  else if arg = "--show-views" then some { o with views := "show" }
  else if arg = "--hide-views" then some { o with views := "hide" }
  else if arg = "--show-indexes" then some { o with indexes := "show" }
  else if arg = "--hide-indexes" then some { o with indexes := "hide" }
  else none

/-- Folds `applyFlag` over the boolean flags of a command line (`--sort`,
which takes a value, is covered by the `sort` field's default here). -/
def parseFlags (o : Options) : List String → Option Options
  | [] => some o
  | a :: rest =>
    match applyFlag o a with
    | some o2 => parseFlags o2 rest
    | none => none

/-- `main`: parse the flags, then run
`fetch_and_display_all(**kwargs)`; `none` models `click` rejecting the
command line. -/
def main (w : World) (dsn : String) (flags : List String) :
    Option (List String × Except RunError Unit × List Event) :=
  match parseFlags (defaultOptions dsn) flags with
  | some o => some (fetch_and_display_all w o.dsn o.sort o.tables o.indexes o.views o.fields)
  | none => none

/-- A database row used by the concrete scenarios. -/
def dbRowA : DbRow :=
  { name := "alpha", owner := "alice", description := none, size := 100 }

/-- A second database row used by the concrete scenarios. -/
def dbRowB : DbRow :=
  { name := "beta", owner := "bob", description := none, size := 200 }

/-- A table row used by the concrete scenarios. -/
def tableRowUsers : TableRow :=
  { schema := "public", name := "users", description := none, size := 10, rows := 5 }

/-- Scenario: one database whose table listing raises
`InsufficientPrivilegeError`. -/
def worldOnePrivErr : World :=
  { dbQuery := fun _ => Except.ok [dbRowA],
    tableQuery := fun _ _ => Except.error PgErr.insufficientPrivilege,
    fieldsQuery := fun _ => Except.ok [] }

/-- Scenario: two databases; the first's table listing succeeds, the
second's raises `InsufficientPrivilegeError`. -/
def worldSecondPrivErr : World :=
  { dbQuery := fun _ => Except.ok [dbRowA, dbRowB],
    tableQuery := fun db _ =>
      if db = "alpha" then Except.ok [tableRowUsers]
      else Except.error PgErr.insufficientPrivilege,
    fieldsQuery := fun _ => Except.ok [] }

/-- Scenario: a healthy single-database server. -/
def worldHealthy : World :=
  { dbQuery := fun _ => Except.ok [dbRowA],
    tableQuery := fun _ _ => Except.ok [tableRowUsers],
    fieldsQuery := fun _ => Except.ok [] }

/-- A column row of `public.users`, used by the concrete scenarios. -/
def fieldRowUsers : FieldRow :=
  { schema_name := "public", table_name := "users", name := "id",
    type := "integer", default := none, nullable := false }

/-- A column row of `public.orders`, used by the concrete scenarios. -/
def fieldRowOrders : FieldRow :=
  { schema_name := "public", table_name := "orders", name := "id",
    type := "integer", default := none, nullable := true }

theorem pyRound_one (n : Int) : pyRound n 1 = n := by
  simp [pyRound, Int.emod_one]

theorem size_human_eq_spec (n : Int) : Size.human ⟨n⟩ = sizeSpecFormat n := by
  by_cases h4 : (1099511627776 : Int) ≤ n
  · simp [Size.human, sizeSpecFormat, List.find?, h4]
  · by_cases h3 : (1073741824 : Int) ≤ n
    · simp [Size.human, sizeSpecFormat, List.find?, h4, h3]
    · by_cases h2 : (1048576 : Int) ≤ n
      · simp [Size.human, sizeSpecFormat, List.find?, h4, h3, h2]
      · by_cases h1 : (1024 : Int) ≤ n
        · simp [Size.human, sizeSpecFormat, List.find?, h4, h3, h2, h1]
        · simp [Size.human, sizeSpecFormat, List.find?, h4, h3, h2, h1,
            pyRound_one]

theorem count_human_eq_spec (n : Int) : Count.human ⟨n⟩ = countSpecFormat n := by
  by_cases h3 : (1000000000 : Int) ≤ n
  · simp [Count.human, countSpecFormat, List.find?, h3]
  · by_cases h2 : (1000000 : Int) ≤ n
    · simp [Count.human, countSpecFormat, List.find?, h3, h2]
    · by_cases h1 : (1000 : Int) ≤ n
      · simp [Count.human, countSpecFormat, List.find?, h3, h2, h1]
      · simp [Count.human, countSpecFormat, List.find?, h3, h2, h1,
          pyRound_one]

example : Size.human ⟨0⟩ = "0 bytes" := by decide
example : Size.human ⟨1536⟩ = "2 KiB" := by decide
example : Size.human ⟨1024 ^ 3⟩ = "1 GiB" := by decide
example : Count.human ⟨500⟩ = "500 rows" := by decide
example : Count.human ⟨1500⟩ = "2k rows" := by decide
example : Count.human ⟨1000000⟩ = "1kk rows" := by decide
example : Size.human ⟨1024 ^ 2 - 1⟩ = "1024 KiB" := by decide
example : Count.human ⟨1000 ^ 2 - 1⟩ = "1000k rows" := by decide
example : Count.human ⟨-1⟩ = "-1 rows" := by decide

/-- Claim C2: for every non-negative integer `n`, `Size.human` picks the
first threshold among TiB, GiB, MiB, KiB that `n` meets or exceeds (else
raw bytes), divides by it, rounds to the nearest integer (half-to-even,
Python's `round`), and formats `"<integer> <unit>"` — it coincides with
the formatter spelled from the spec's words — and in particular
`0 ↦ "0 bytes"`, `1536 ↦ "2 KiB"`, `1024^3 ↦ "1 GiB"`. -/
theorem size_formatter_matches_spec :
    (∀ n : Nat, Size.human ⟨(n : Int)⟩ = sizeSpecFormat (n : Int))
    ∧ Size.human ⟨0⟩ = "0 bytes"
    ∧ Size.human ⟨1536⟩ = "2 KiB"
    ∧ Size.human ⟨1024 ^ 3⟩ = "1 GiB" :=
  ⟨fun n => size_human_eq_spec (n : Int), by decide, by decide, by decide⟩

/-- Claim C3: for every non-negative integer `n`, `Count.human` uses
thresholds `1000^3` (`"kkk rows"`), `1000^2` (`"kk rows"`), `1000^1`
(`"k rows"`), else the raw value with suffix `" rows"` — it coincides
with the formatter spelled from the spec's words, whose suffixes never
vary for singular/plural (witness `1000 ↦ "1k rows"`) — and in
particular `500 ↦ "500 rows"`, `1500 ↦ "2k rows"`,
`1000000 ↦ "1kk rows"`. -/
theorem count_formatter_matches_spec :
    (∀ n : Nat, Count.human ⟨(n : Int)⟩ = countSpecFormat (n : Int))
    ∧ Count.human ⟨500⟩ = "500 rows"
    ∧ Count.human ⟨1500⟩ = "2k rows"
    ∧ Count.human ⟨1000000⟩ = "1kk rows"
    ∧ Count.human ⟨1000⟩ = "1k rows"
    ∧ Count.human ⟨1⟩ = "1 rows" :=
  ⟨fun n => count_human_eq_spec (n : Int), by decide, by decide, by decide,
    by decide, by decide⟩

/-- Claim C9: rounding happens after unit selection, so a value just
below a unit threshold renders as the full smaller-unit quantity:
`1024^2 - 1 ↦ "1024 KiB"` (not `"1 MiB"`) and
`1000^2 - 1 ↦ "1000k rows"` (not `"1kk rows"`). -/
theorem rounding_after_unit_selection :
    Size.human ⟨1024 ^ 2 - 1⟩ = "1024 KiB"
    ∧ Count.human ⟨1000 ^ 2 - 1⟩ = "1000k rows" :=
  ⟨by decide, by decide⟩

/-- Claim C10: `Count.human` is total on all integers; for every
`n < 1000`, negative values included, it returns `"<n> rows"` without
failing, so the `-1` row estimate that storage statistics can report
renders as `"-1 rows"`. -/
theorem count_total_below_thousand (n : Int) (h : n < 1000) :
    Count.human ⟨n⟩ = toString n ++ " rows" := by
  have h3 : ¬ ((1000000000 : Int) ≤ n) := by omega
  have h2 : ¬ ((1000000 : Int) ≤ n) := by omega
  have h1 : ¬ ((1000 : Int) ≤ n) := by omega
  simp [Count.human, h3, h2, h1, pyRound_one]

/-- Witness for C10 at the concrete input `-1`. -/
theorem count_total_below_thousand_witness :
    (-1 : Int) < 1000 ∧ Count.human ⟨-1⟩ = toString (-1 : Int) ++ " rows" :=
  ⟨by decide, count_total_below_thousand (-1) (by decide)⟩

/-- Claim C1 is false of the code: the `except InsufficientPrivilegeError:
pass` handler never assigns the local `tables`.  When the very first
database's table listing fails, the local is unbound and the `yield`
raises `UnboundLocalError`, aborting the run with no database produced;
when a previous iteration had bound it, the failing database is yielded
with the PREVIOUS database's table list instead of an empty one.  Both
behaviours are evaluated here (run with defaults: sort name, tables and
fields shown). -/
theorem privilege_error_unbinds_tables :
    ((fetch_databases worldOnePrivErr ("dsn") ("name") true true).1 = []
      ∧ (fetch_databases worldOnePrivErr ("dsn") ("name") true true).2.1
          = Except.error RunError.unboundLocal)
    ∧ ((fetch_databases worldSecondPrivErr ("dsn") ("name") true true).1.map
          (fun d => (d.name, d.tables.length)) = [("alpha", 1), ("beta", 1)]
      ∧ (fetch_databases worldSecondPrivErr ("dsn") ("name") true true).2.1
          = Except.ok ()) :=
  ⟨⟨rfl, rfl⟩, rfl, rfl⟩

/-- Claim C4 is false of the code: `fetch_tables` reaches its
`await connection.close()` only when every query on the connection
succeeded, so on the swallowed permission-error path the connection
opened for the failing table fetch is never closed even though the run
terminates normally.  Evaluated on the two-database scenario: the run
ends `ok`, the successful iteration's connection `dsn/alpha` is opened
and closed, but `dsn/beta` is opened and never closed. -/
theorem privilege_error_leaks_connection :
    (fetch_databases worldSecondPrivErr ("dsn") ("name") true true).2.1 = Except.ok ()
    ∧ (fetch_databases worldSecondPrivErr ("dsn") ("name") true true).2.2.count
        (Event.connect ("dsn/alpha")) = 1
    ∧ (fetch_databases worldSecondPrivErr ("dsn") ("name") true true).2.2.count
        (Event.close ("dsn/alpha")) = 1
    ∧ (fetch_databases worldSecondPrivErr ("dsn") ("name") true true).2.2.count
        (Event.connect ("dsn/beta")) = 1
    ∧ (fetch_databases worldSecondPrivErr ("dsn") ("name") true true).2.2.count
        (Event.close ("dsn/beta")) = 0 :=
  ⟨rfl, rfl, rfl, rfl, rfl⟩

theorem fdLoop_hide_tables (w : World) (base_dsn sort : String) (show_fields : Bool) :
    ∀ (rows : List DbRow) (tv : Option (List Table)) (log : List Event),
      fdLoop w base_dsn sort false show_fields rows tv log
        = (rows.map (fun row => mkDatabase row []), Except.ok (), log) := by
  intro rows
  induction rows with
  | nil => intro tv log; rfl
  | cons r rest ih => intro tv log; simp [fdLoop, ih]

/-- Claim C5: with `--hide-tables`, no table-listing fetch happens for
any database and every database row is produced and rendered as a
`Database` with an empty table sequence; the whole run performs exactly
one connection, the database-list query, and the matching close. -/
theorem hide_tables_skips_table_fetch (w : World)
    (dsn sort indexes views fields ob : String) (rows : List DbRow)
    (hob : orderByDbs sort = Except.ok ob)
    (hdb : w.dbQuery ob = Except.ok rows) :
    (fetch_and_display_all w dsn sort ("hide") indexes views fields).1
        = ((rows.map (fun row => mkDatabase row [])).map (fun d => d.display 0)).flatten
    ∧ (fetch_and_display_all w dsn sort ("hide") indexes views fields).2.1 = Except.ok ()
    ∧ (fetch_and_display_all w dsn sort ("hide") indexes views fields).2.2
        = [Event.connect (dsn ++ "/postgres"), Event.dbQuery, Event.close (dsn ++ "/postgres")]
    ∧ (∀ db, Event.tableQuery db ∉ (fetch_and_display_all w dsn sort ("hide") indexes views fields).2.2)
    ∧ (∀ d ∈ rows.map (fun row => mkDatabase row []), d.tables = []) := by
  have hb : (("hide" : String) == "show") = false := by decide
  have hrun : fetch_and_display_all w dsn sort ("hide") indexes views fields
      = (((rows.map (fun row => mkDatabase row [])).map (fun d => d.display 0)).flatten,
         Except.ok (),
         [Event.connect (dsn ++ "/postgres"), Event.dbQuery,
          Event.close (dsn ++ "/postgres")]) := by
    simp [fetch_and_display_all, fetch_databases, hb, hob, hdb, fdLoop_hide_tables]
  refine ⟨by rw [hrun], by rw [hrun], by rw [hrun], ?_, ?_⟩
  · intro db
    rw [hrun]
    simp
  · intro d hd
    obtain ⟨row, _, rfl⟩ := List.mem_map.mp hd
    rfl

/-- Witness for C5 on a concrete healthy server. -/
theorem hide_tables_skips_table_fetch_witness :
    (fetch_and_display_all worldHealthy ("dsn") ("name") ("hide") ("show") ("show") ("show")).2.1
        = Except.ok ()
    ∧ (fetch_and_display_all worldHealthy ("dsn") ("name") ("hide") ("show") ("show") ("show")).2.2
        = [Event.connect ("dsn" ++ "/postgres"), Event.dbQuery,
           Event.close ("dsn" ++ "/postgres")] := by
  have h := hide_tables_skips_table_fetch worldHealthy ("dsn") ("name") ("show") ("show")
    ("show") ("db.datname") [dbRowA] rfl rfl
  exact ⟨h.2.1, h.2.2.1⟩

theorem foldl_append_singleton {α β : Type} (g : α → β) :
    ∀ (l : List α) (acc : List β),
      l.foldl (fun a r => a ++ [g r]) acc = acc ++ l.map g := by
  intro l
  induction l with
  | nil => intro acc; simp
  | cons x xs ih => intro acc; simp [ih]

/-- Claim C6: `fetch_fields` returns exactly the column rows whose schema
and table equal the given pair (case-sensitive propositional string
equality), in their input order, each mapped to a `Field` whose
description is `none`. -/
theorem fetch_fields_filters_exactly (rows : List FieldRow) (s t : String) :
    fetch_fields rows s t
      = (rows.filter (fun r => decide (r.schema_name = s ∧ r.table_name = t))).map
          (fun r => { name := r.name, description := none, type := r.type,
                      default := r.default, nullable := r.nullable })
    ∧ ∀ f ∈ fetch_fields rows s t, f.description = none := by
  have hfil : (fun (r : FieldRow) => r.schema_name == s && r.table_name == t)
      = (fun r => decide (r.schema_name = s ∧ r.table_name = t)) := by
    funext r
    by_cases h1 : r.schema_name = s <;> by_cases h2 : r.table_name = t <;> simp [h1, h2]
  have heq : fetch_fields rows s t
      = (rows.filter (fun r => decide (r.schema_name = s ∧ r.table_name = t))).map
          (fun r => { name := r.name, description := none, type := r.type,
                      default := r.default, nullable := r.nullable }) := by
    simp [fetch_fields, hfil, foldl_append_singleton]
  refine ⟨heq, ?_⟩
  intro f hf
  rw [heq] at hf
  obtain ⟨r, _, rfl⟩ := List.mem_map.mp hf
  rfl

/-- Witness for C6: only the `public.users` row survives, with
`description = none`. -/
theorem fetch_fields_filters_exactly_witness :
    fetch_fields [fieldRowUsers, fieldRowOrders] ("public") ("users")
      = [{ name := "id", description := none, type := "integer", default := none,
           nullable := false }] := by
  have h := (fetch_fields_filters_exactly [fieldRowUsers, fieldRowOrders]
    ("public") ("users")).1
  rw [h]
  decide

/-- Claim C7: the views and indexes options are accepted by the command
line (both spellings of each parse successfully) and are inert: two runs
differing only in those flags produce identical output, outcome and
event log. -/
theorem views_indexes_flags_inert :
    (∀ dsn : String,
        (parseFlags (defaultOptions dsn) [("--show-views")]).isSome = true
      ∧ (parseFlags (defaultOptions dsn) [("--hide-views")]).isSome = true
      ∧ (parseFlags (defaultOptions dsn) [("--show-indexes")]).isSome = true
      ∧ (parseFlags (defaultOptions dsn) [("--hide-indexes")]).isSome = true)
    ∧ (∀ (w : World) (dsn sort tables fields views1 views2 indexes1 indexes2 : String),
        fetch_and_display_all w dsn sort tables indexes1 views1 fields
          = fetch_and_display_all w dsn sort tables indexes2 views2 fields) :=
  ⟨fun _ => ⟨rfl, rfl, rfl, rfl⟩,
   fun _ _ _ _ _ _ _ _ _ => rfl⟩

theorem paren_not_mem_indentOf (n : Nat) : ('(') ∉ (indentOf n).data := by
  induction n with
  | zero =>
    intro h
    revert h
    decide
  | succ k ih =>
    simp only [indentOf, String.data_append, List.mem_append]
    rintro (h | h)
    · revert h
      decide
    · exact ih h

/-- Claim C8: the rendered field line contains the `(nullable)` marker
iff the field's nullable flag is set.  The hypotheses record that
neither the column name nor the type name contains a parenthesis — true
of every identifier and of the unparameterised `data_type` strings the
column query returns — which rules out the marker arising from data. -/
theorem nullable_marker_iff_nullable (f : Field) (ident : Nat)
    (hname : ('(') ∉ f.name.data) (htype : ('(') ∉ f.type.data) :
    (("(nullable)").data <:+: (f.display ident).data) ↔ f.nullable = true := by
  cases hf : f.nullable
  · apply iff_of_false
    · intro hin
      have hp : ('(') ∈ (f.display ident).data :=
        hin.subset (by decide : ('(') ∈ (("(nullable)").data))
      have hb1 : ('(') ∉ ("• " : String).data := by decide
      have hb2 : ('(') ∉ (ansiGreen).data := by decide
      have hb3 : ('(') ∉ (ansiReset).data := by decide
      have hb4 : ('(') ∉ (" " : String).data := by decide
      have hb5 : ('(') ∉ ("| " : String).data := by decide
      have hb6 : ('(') ∉ ("" : String).data := by decide
      revert hp
      simp [Field.display, hf, String.data_append, List.mem_append, not_or,
        paren_not_mem_indentOf, hname, htype, hb1, hb2, hb3, hb4, hb5, hb6]
    · simp
  · apply iff_of_true
    · refine ⟨(indentOf ident ++ ("• " ++ ansiGreen ++ f.name ++ ansiReset ++ " ")
        ++ ("| " ++ f.type) ++ " " ++ ansiRed).data, (ansiReset).data, ?_⟩
      simp [Field.display, hf, String.data_append, List.append_assoc]
    · rfl

/-- Witness for C8 on a concrete nullable field. -/
theorem nullable_marker_iff_nullable_witness :
    (("(nullable)").data <:+:
        (Field.display
          { name := "id", description := none, type := "integer", default := none,
            nullable := true } 1).data)
      ↔ (true = true) :=
  nullable_marker_iff_nullable
    { name := "id", description := none, type := "integer", default := none,
      nullable := true } 1 (by decide) (by decide)

end Pgls
